import Mathlib

/-!
Verification of the ai-agent-os / ai-agent-hub message relay.

This file gives a shallow embedding of the Python sources:
  * `src/ai_agent_os/envelope.py`   (Envelope dataclass, validation, JSON codec)
  * `src/ai_agent_hub/lmtp_handler.py` (agent-id extractor, body extractor, queue sink)
  * `src/ai_agent_hub/lmtp_server.py`  (LMTP session state machine, message assembly)

Conventions of the embedding:
  * Python exceptions become the `PyErr` sum type; fallible code returns `Except PyErr _`.
  * JSON-serializable Python values (`dict`/`str`/... ) are the `Json` inductive;
    `json.dumps`/`json.loads` round-trip is the identity at this level, so
    `to_json`/`from_json` operate on `Json` directly.
  * Byte strings on the wire are modelled as `String` (the protocol content relevant
    to the specification is ASCII; `decode(errors="replace")` is the identity there).
  * `datetime` objects are `PyDateTime` records (microsecond precision, optional
    UTC offset in minutes, which covers every timestamp this code base builds).
-/

/-- Python exception values that the embedded code can raise. -/
inductive PyErr where
  | keyError (msg : String)
  | typeError (msg : String)
  | valueError (msg : String)
  | attributeError (msg : String)
deriving DecidableEq, Repr

/-- JSON values; also stands for the JSON-serializable Python values
(`None`/`bool`/`int`/`str`/`list`/`dict`) that flow through the envelope code. -/
inductive Json where
  | null
  | bool (b : Bool)
  | num (n : Int)
  | str (s : String)
  | arr (elems : List Json)
  | obj (entries : List (String × Json))

/-- Lookup in a Python dict (modelled as an association list with unique keys;
`data["k"]` / `data.get("k")`). -/
def jlookup (kvs : List (String × Json)) (k : String) : Option Json :=
  match kvs with
  | [] => none
  | (k', v) :: rest => if k' = k then some v else jlookup rest k

/-- Python truthiness of a JSON value (`bool(x)`): `None`, `False`, `0`, `""`,
`[]` and `{}` are falsy. -/
def jsonTruthy : Json → Bool
  | .null => false
  | .bool b => b
  | .num n => n != 0
  | .str s => s ≠ ""
  | .arr [] => false
  | .arr (_ :: _) => true
  | .obj [] => false
  | .obj (_ :: _) => true

/-- Decimal digit character for a digit value (`0 ↦ '0'`, ..., `9 ↦ '9'`). -/
def digitChar (n : Nat) : Char := Char.ofNat (48 + n)

/-- Two-digit zero-padded decimal rendering (`%02d`). -/
def pad2 (n : Nat) : List Char := [digitChar (n / 10), digitChar (n % 10)]

/-- Four-digit zero-padded decimal rendering (`%04d`). -/
def pad4 (n : Nat) : List Char := pad2 (n / 100) ++ pad2 (n % 100)

/-- Six-digit zero-padded decimal rendering (`%06d`), used for microseconds. -/
def pad6 (n : Nat) : List Char := pad2 (n / 10000) ++ pad2 (n / 100 % 100) ++ pad2 (n % 100)

/-- Model of a Python `datetime.datetime`: calendar fields plus an optional
timezone offset in minutes (`None` = naive). -/
structure PyDateTime where
  year : Nat
  month : Nat
  day : Nat
  hour : Nat
  minute : Nat
  second : Nat
  microsecond : Nat
  utcOffsetMinutes : Option Int
deriving DecidableEq, Repr

/-- Whether a year is a Gregorian leap year (`calendar.isleap`). -/
def isLeapYear (y : Nat) : Bool :=
  (y % 4 = 0 && y % 100 ≠ 0) || y % 400 = 0

/-- Days in a month of a given year. -/
def daysInMonth (y m : Nat) : Nat :=
  if m = 2 then (if isLeapYear y then 29 else 28)
  else if m = 4 ∨ m = 6 ∨ m = 9 ∨ m = 11 then 30
  else 31

/-- Offset suffix of `datetime.isoformat()` for an aware datetime:
sign, two-digit hours, `:`, two-digit minutes. -/
def offsetChars (o : Int) : List Char :=
  (if o < 0 then ['-'] else ['+']) ++ pad2 (o.natAbs / 60) ++ [':'] ++ pad2 (o.natAbs % 60)

/-- Model of `datetime.isoformat()`: `YYYY-MM-DDTHH:MM:SS`, with `.ffffff`
exactly when the microsecond field is nonzero, and the UTC-offset suffix
exactly when the datetime is aware. -/
def isoformat (dt : PyDateTime) : List Char :=
  pad4 dt.year ++ ['-'] ++ pad2 dt.month ++ ['-'] ++ pad2 dt.day ++ ['T'] ++
  pad2 dt.hour ++ [':'] ++ pad2 dt.minute ++ [':'] ++ pad2 dt.second ++
  (if dt.microsecond = 0 then [] else '.' :: pad6 dt.microsecond) ++
  (match dt.utcOffsetMinutes with
   | none => []
   | some o => offsetChars o)

/-- Whether a character is an ASCII decimal digit. -/
def isDigitChar (c : Char) : Bool := '0' ≤ c && c ≤ '9'

/-- Numeric value of an ASCII digit character. -/
def digitVal (c : Char) : Nat := c.toNat - 48

/-- Parse exactly two decimal digits, returning the value and the rest. -/
def parse2 : List Char → Option (Nat × List Char)
  | c1 :: c2 :: rest =>
    if isDigitChar c1 && isDigitChar c2 then
      some (digitVal c1 * 10 + digitVal c2, rest)
    else none
  | _ => none

/-- Parse exactly four decimal digits, returning the value and the rest. -/
def parse4 (l : List Char) : Option (Nat × List Char) :=
  match parse2 l with
  | none => none
  | some (hi, r) =>
    match parse2 r with
    | none => none
    | some (lo, r2) => some (hi * 100 + lo, r2)

/-- Consume one expected character. -/
def expectChar (c : Char) : List Char → Option (List Char)
  | d :: rest => if d = c then some rest else none
  | [] => none

/-- Parse a fractional-seconds group `.d{1,6}`, scaled to microseconds. -/
def parseFrac (l : List Char) : Option (Nat × List Char) :=
  match l with
  | '.' :: rest =>
    let ds := rest.takeWhile isDigitChar
    let r := rest.dropWhile isDigitChar
    if ds.length = 0 || 6 < ds.length then none
    else some ((ds.foldl (fun v c => v * 10 + digitVal c) 0) * 10 ^ (6 - ds.length), r)
  | _ => none

/-- Fractional-seconds step of `fromisoformat`: required to parse when a `.`
follows the seconds, absent (zero microseconds) otherwise. -/
def parseFracOpt (l : List Char) : Option (Nat × List Char) :=
  match l with
  | '.' :: _ => parseFrac l
  | _ => some (0, l)

/-- Parse the trailing UTC-offset group (`+HH:MM` / `-HH:MM`) or its absence. -/
def parseOffset (l : List Char) : Option (Option Int × List Char) :=
  match l with
  | [] => some (none, [])
  | '+' :: r =>
    match parse2 r with
    | none => none
    | some (oh, r2) =>
      match expectChar ':' r2 with
      | none => none
      | some r3 =>
        match parse2 r3 with
        | none => none
        | some (om, r4) =>
          if oh ≤ 23 && om ≤ 59 then some (some ((oh * 60 + om : Nat) : Int), r4) else none
  | '-' :: r =>
    match parse2 r with
    | none => none
    | some (oh, r2) =>
      match expectChar ':' r2 with
      | none => none
      | some r3 =>
        match parse2 r3 with
        | none => none
        | some (om, r4) =>
          if oh ≤ 23 && om ≤ 59 then some (some (-((oh * 60 + om : Nat) : Int)), r4) else none
  | _ => none

/-- Whether the calendar/time fields are a valid datetime (Python range checks). -/
def dtRangesOk (y mo d h mi s us : Nat) : Bool :=
  1 ≤ y && y ≤ 9999 && 1 ≤ mo && mo ≤ 12 && 1 ≤ d && d ≤ daysInMonth y mo &&
  h ≤ 23 && mi ≤ 59 && s ≤ 59 && us ≤ 999999

/-- Model of `datetime.fromisoformat` on the grammar that `isoformat` and this
code base produce: `YYYY-MM-DD[T ]HH:MM:SS[.ffffff][±HH:MM]` (or a bare date,
read as midnight).  Returns `none` where Python raises `ValueError`. -/
def fromisoformat (l : List Char) : Option PyDateTime :=
  match parse4 l with
  | none => none
  | some (y, r1) =>
  match expectChar '-' r1 with
  | none => none
  | some r2 =>
  match parse2 r2 with
  | none => none
  | some (mo, r3) =>
  match expectChar '-' r3 with
  | none => none
  | some r4 =>
  match parse2 r4 with
  | none => none
  | some (d, r5) =>
  match r5 with
  | [] => if dtRangesOk y mo d 0 0 0 0 then some ⟨y, mo, d, 0, 0, 0, 0, none⟩ else none
  | sep :: r6 =>
    if sep = 'T' || sep = ' ' then
      match parse2 r6 with
      | none => none
      | some (h, r7) =>
      match expectChar ':' r7 with
      | none => none
      | some r8 =>
      match parse2 r8 with
      | none => none
      | some (mi, r9) =>
      match expectChar ':' r9 with
      | none => none
      | some r10 =>
      match parse2 r10 with
      | none => none
      | some (s, r11) =>
      match parseFracOpt r11 with
      | none => none
      | some (us, r12) =>
      match parseOffset r12 with
      | none => none
      | some (tz, r13) =>
        if r13 = [] && dtRangesOk y mo d h mi s us then
          some ⟨y, mo, d, h, mi, s, us, tz⟩
        else none
    else none

/-- Model of `_AGENT_ID_PATTERN.match` from `envelope.py`: the anchored regex
`^https?://[^/]+/@[^/]+$` — scheme `http` or `https`, then a nonempty run of
non-slash characters (the host), then `/@`, then a nonempty run of non-slash
characters (the name) reaching the end of the string. -/
def agent_id_tail_matches (l : List Char) : Bool :=
  let host := l.takeWhile (fun c => c ≠ '/')
  let rest := l.dropWhile (fun c => c ≠ '/')
  match rest with
  | '/' :: '@' :: name =>
    host ≠ [] && name ≠ [] && name.all (fun c => c ≠ '/')
  | _ => false

/-- Anchored match of `^https?://[^/]+/@[^/]+$` on a whole string
(`_validate_agent_id` succeeds exactly when this is true). -/
def agent_id_matches (s : String) : Bool :=
  match s.data with
  | 'h' :: 't' :: 't' :: 'p' :: 's' :: ':' :: '/' :: '/' :: tail => agent_id_tail_matches tail
  | 'h' :: 't' :: 't' :: 'p' :: ':' :: '/' :: '/' :: tail => agent_id_tail_matches tail
  | _ => false

/-- The Envelope dataclass of `envelope.py`.  `context`/`in_reply_to` are stored
verbatim (Python does not validate them), hence typed `Json` with `.null` for
Python `None`. -/
structure Envelope where
  id : String
  envelope_type : String
  sender : String
  recipient : String
  payload : Json
  created_at : PyDateTime
  context : Json
  in_reply_to : Json
  version : String

/-- Whether a value is an admissible payload (`isinstance(payload, (str, dict))`). -/
def payloadTypeOk : Option Json → Bool
  | some (.str _) => true
  | some (.obj _) => true
  | _ => false

/-- Model of constructing an `Envelope` (dataclass `__init__` followed by
`__post_init__`): validate both agent ids, the payload type and the timestamp
type, then coerce a naive timestamp to UTC.  `payload = none` stands for Python
`None` (e.g. a missing `payload` key in `from_dict`); `created_at = none`
stands for a non-`datetime` value. -/
def mk_envelope (id envelope_type sender recipient : String) (payload : Option Json)
    (created_at : Option PyDateTime) (context in_reply_to : Json)
    (version : String) : Except PyErr Envelope :=
  if ¬ agent_id_matches sender then
    .error (.valueError "Agent ID must follow ActivityPub style (e.g., https://domain/@name).")
  else if ¬ agent_id_matches recipient then
    .error (.valueError "Agent ID must follow ActivityPub style (e.g., https://domain/@name).")
  else if ¬ payloadTypeOk payload then
    .error (.typeError "payload must be a JSON object (dict) or text string")
  else
    match payload, created_at with
    | some pl, some dt =>
      let dt' := if dt.utcOffsetMinutes = none then { dt with utcOffsetMinutes := some 0 } else dt
      .ok ⟨id, envelope_type, sender, recipient, pl, dt', context, in_reply_to, version⟩
    | _, _ => .error (.typeError "created_at must be a datetime instance")

/-- Model of `Envelope.to_dict`: the nine fixed keys in source order, with the
timestamp rendered by `isoformat`. -/
def to_dict (e : Envelope) : List (String × Json) :=
  [("version", .str e.version),
   ("id", .str e.id),
   ("from", .str e.sender),
   ("to", .str e.recipient),
   ("type", .str e.envelope_type),
   ("payload", e.payload),
   ("time", .str ⟨isoformat e.created_at⟩),
   ("context", e.context),
   ("inReplyTo", e.in_reply_to)]

/-- Model of `Envelope.to_json` at the JSON-value level (`json.dumps ∘ to_dict`,
with `dumps`/`loads` collapsed to the identity on `Json`). -/
def to_json (e : Envelope) : Json := .obj (to_dict e)

/-- Model of `Envelope.from_dict`.  Lookup and evaluation order follow the
source: `time` first (missing ⇒ `KeyError`, non-parsable string ⇒ `ValueError`),
then `id`, `type`, `from`, `to` (each missing ⇒ `KeyError`), then the optional
fields; construction validation runs last.  The fields the dataclass declares
as `str` are required to be JSON strings here (for `from`/`to` Python likewise
raises `TypeError` when the regex is applied to a non-string). -/
def from_dict (data : List (String × Json)) : Except PyErr Envelope :=
  match jlookup data "time" with
  | none => .error (.keyError "Missing required field 'time'")
  | some traw =>
    let createdStep : Except PyErr (Option PyDateTime) :=
      match traw with
      | .str s =>
        match fromisoformat s.data with
        | some dt => .ok (some dt)
        | none => .error (.valueError ("Invalid isoformat string: " ++ s))
      | _ => .ok none
    match createdStep with
    | .error e => .error e
    | .ok created_at =>
      match jlookup data "id" with
      | none => .error (.keyError "id")
      | some idv =>
      match jlookup data "type" with
      | none => .error (.keyError "type")
      | some tyv =>
      match jlookup data "from" with
      | none => .error (.keyError "from")
      | some fv =>
      match jlookup data "to" with
      | none => .error (.keyError "to")
      | some tov =>
      match idv, tyv, fv, tov with
      | .str idS, .str tyS, .str fS, .str toS =>
        let payload := jlookup data "payload"
        let context := (jlookup data "context").getD .null
        let in_reply_to := (jlookup data "inReplyTo").getD .null
        match (jlookup data "version").getD (.str "v0.1") with
        | .str version =>
          mk_envelope idS tyS fS toS payload created_at context in_reply_to version
        | _ => .error (.typeError "version must be a string")
      | _, _, _, _ => .error (.typeError "envelope string field must be a string")

/-- Model of `Envelope.from_json`: the decoded JSON must be an object. -/
def from_json (j : Json) : Except PyErr Envelope :=
  match j with
  | .obj kvs => from_dict kvs
  | _ => .error (.valueError "Envelope JSON must represent an object")

/-- A parsed MIME message (`email.message.Message`): top-level headers, a declared
content type, and either a decoded text body (leaf part;
`get_payload(decode=True).decode(errors="replace")`) or a list of sub-parts. -/
inductive MimeMsg where
  | leaf (headers : List (String × String)) (contentType : String) (body : String)
  | multi (headers : List (String × String)) (contentType : String) (parts : List MimeMsg)

/-- Headers of a message. -/
def MimeMsg.headers : MimeMsg → List (String × String)
  | .leaf hs _ _ => hs
  | .multi hs _ _ => hs

/-- Declared content type (`get_content_type`). -/
def MimeMsg.contentType : MimeMsg → String
  | .leaf _ ct _ => ct
  | .multi _ ct _ => ct

/-- Whether the message is multipart (`is_multipart`). -/
def MimeMsg.isMultipart : MimeMsg → Bool
  | .leaf _ _ _ => false
  | .multi _ _ _ => true

/-- Lowercase an ASCII string (header names compare case-insensitively). -/
def asciiLower (s : String) : String := ⟨s.data.map Char.toLower⟩

/-- Case-insensitive header lookup (`msg.get(name)`). -/
def headerGet (m : MimeMsg) (name : String) : Option String :=
  (m.headers.find? (fun kv => asciiLower kv.1 = asciiLower name)).map Prod.snd

mutual

/-- Depth-first walk over a message tree (`msg.walk()`): the message itself
first, then its parts recursively, in document order. -/
def MimeMsg.walk : MimeMsg → List MimeMsg
  | .leaf hs ct b => [.leaf hs ct b]
  | .multi hs ct parts => .multi hs ct parts :: walkParts parts

/-- Walk each part of a multipart body in order. -/
def walkParts : List MimeMsg → List MimeMsg
  | [] => []
  | p :: ps => p.walk ++ walkParts ps

end

/-- Model of `extract_body` from `lmtp_handler.py`: for a multipart message,
return the decoded text of the first walked part whose content type is exactly
`text/plain` (empty string when there is none); for a single-part message,
return its decoded payload.  The function returns the text as-is — it performs
no JSON parse.  (If the first `text/plain` part were itself multipart,
`get_payload(decode=True)` would be `None` and Python would raise; that arm is
the `attributeError` case.) -/
def extract_body (m : MimeMsg) : Except PyErr Json :=
  match m with
  | .leaf _ _ body => .ok (.str body)
  | .multi hs ct parts =>
    match (MimeMsg.multi hs ct parts).walk.find? (fun p => p.contentType = "text/plain") with
    | some (.leaf _ _ body) => .ok (.str body)
    | some (.multi _ _ _) => .error (.attributeError "'NoneType' object has no attribute 'decode'")
    | none => .ok (.str "")

/-- Host characters of `_AGENT_ID_PATTERN` in `lmtp_handler.py`: `[a-zA-Z0-9.\-]`. -/
def isHostChar (c : Char) : Bool :=
  ('a' ≤ c && c ≤ 'z') || ('A' ≤ c && c ≤ 'Z') || ('0' ≤ c && c ≤ '9') || c = '.' || c = '-'

/-- Name characters of `_AGENT_ID_PATTERN`: `[a-zA-Z0-9_.\-]`. -/
def isNameChar (c : Char) : Bool := isHostChar c || c = '_'

/-- Match `://` + host + `/@` + name at the current position, given the scheme
characters already consumed; greedy, mirroring the regex (the character classes
exclude `/`, so the greedy runs are deterministic). -/
def matchFromScheme (scheme : List Char) : List Char → Option (List Char)
  | ':' :: '/' :: '/' :: r =>
    let host := r.takeWhile isHostChar
    let r2 := r.dropWhile isHostChar
    if host = [] then none
    else
      match r2 with
      | '/' :: '@' :: r3 =>
        let name := r3.takeWhile isNameChar
        if name = [] then none
        else some (scheme ++ ':' :: '/' :: '/' :: host ++ '/' :: '@' :: name)
      | _ => none
  | _ => none

/-- Try to match `https?://[a-zA-Z0-9.\-]+/@[a-zA-Z0-9_.\-]+` at the head of the
list (with the regex's backtracking over the optional `s`). -/
def tryMatchAgent (l : List Char) : Option (List Char) :=
  match l with
  | 'h' :: 't' :: 't' :: 'p' :: rest =>
    (match rest with
     | 's' :: rest2 =>
       (match matchFromScheme ['h', 't', 't', 'p', 's'] rest2 with
        | some m => some m
        | none => matchFromScheme ['h', 't', 't', 'p'] rest)
     | _ => matchFromScheme ['h', 't', 't', 'p'] rest)
  | _ => none

/-- Leftmost search (`re.search`) for the agent-id pattern. -/
def findFirstAgentId : List Char → Option (List Char)
  | [] => none
  | c :: rest =>
    match tryMatchAgent (c :: rest) with
    | some m => some m
    | none => findFirstAgentId rest

/-- Anchored match of the extractor pattern over a whole string — this is the
shape the specification ascribes to extractor results (restricted host and name
character classes), and the shape the spec claims `_validate_agent_id` enforces. -/
def strict_agent_id_matches (s : String) : Bool :=
  match s.data with
  | 'h' :: 't' :: 't' :: 'p' :: 's' :: rest => strictTail rest
  | 'h' :: 't' :: 't' :: 'p' :: rest => strictTail rest
  | _ => false
where
  strictTail : List Char → Bool
  | ':' :: '/' :: '/' :: r =>
    let host := r.takeWhile isHostChar
    let r2 := r.dropWhile isHostChar
    host ≠ [] &&
      (match r2 with
       | '/' :: '@' :: name => name ≠ [] && name.all isNameChar
       | _ => false)
  | _ => false

/-- Whitespace for the regex class `\s` (ASCII fragment). -/
def isPySpace (c : Char) : Bool :=
  c = ' ' || c = '\t' || c = '\n' || c = '\r' || c = '\x0b' || c = '\x0c'

/-- Replace angle brackets by spaces (`re.sub(r"[<>]", " ", raw_header)`). -/
def replaceAngles (l : List Char) : List Char :=
  l.map (fun c => if c = '<' || c = '>' then ' ' else c)

/-- Match `\s*:\s*//` and return (matched characters, rest). -/
def repairTailMatch (l : List Char) : Option (List Char × List Char) :=
  match l.dropWhile isPySpace with
  | ':' :: r2 =>
    (match r2.dropWhile isPySpace with
     | '/' :: '/' :: r4 =>
       some (l.takeWhile isPySpace ++ ':' :: r2.takeWhile isPySpace ++ ['/', '/'], r4)
     | _ => none)
  | _ => none

/-- Match `https?\s*:\s*//` at the head of the list, returning (matched
characters, rest); backtracks over the optional `s` like the regex. -/
def tryRepairMatch (l : List Char) : Option (List Char × List Char) :=
  match l with
  | 'h' :: 't' :: 't' :: 'p' :: 's' :: rest2 =>
    (match repairTailMatch rest2 with
     | some (m, r) => some ('h' :: 't' :: 't' :: 'p' :: 's' :: m, r)
     | none =>
       match repairTailMatch ('s' :: rest2) with
       | some (m, r) => some ('h' :: 't' :: 't' :: 'p' :: m, r)
       | none => none)
  | 'h' :: 't' :: 't' :: 'p' :: rest =>
    (match repairTailMatch rest with
     | some (m, r) => some ('h' :: 't' :: 't' :: 'p' :: m, r)
     | none => none)
  | _ => none

/-- A successful `repairTailMatch` splits its input. -/
theorem repairTailMatch_eq (l m r : List Char) (h : repairTailMatch l = some (m, r)) :
    m ++ r = l := by
  unfold repairTailMatch at h
  split at h
  · rename_i r2 hd
    split at h
    · rename_i r4 hd3
      simp only [Option.some.injEq, Prod.mk.injEq] at h
      obtain ⟨hm, hr⟩ := h
      have e1 : l.takeWhile isPySpace ++ (':' :: r2) = l := by
        have e := List.takeWhile_append_dropWhile (p := isPySpace) (l := l)
        rw [hd] at e; exact e
      have e2 : r2.takeWhile isPySpace ++ ('/' :: '/' :: r4) = r2 := by
        have e := List.takeWhile_append_dropWhile (p := isPySpace) (l := r2)
        rw [hd3] at e; exact e
      rw [← hm, ← hr]
      calc (l.takeWhile isPySpace ++ ':' :: r2.takeWhile isPySpace ++ ['/', '/']) ++ r4
          = l.takeWhile isPySpace ++ ':' :: (r2.takeWhile isPySpace ++ ('/' :: '/' :: r4)) := by
            simp
        _ = l.takeWhile isPySpace ++ ':' :: r2 := by rw [e2]
        _ = l := e1
    · simp at h
  · simp at h

/-- A successful `tryRepairMatch` splits its input into a nonempty match and a rest. -/
theorem tryRepairMatch_eq (l m r : List Char) (h : tryRepairMatch l = some (m, r)) :
    m ++ r = l ∧ m ≠ [] := by
  unfold tryRepairMatch at h
  split at h
  · rename_i rest2
    rcases h1 : repairTailMatch rest2 with _ | ⟨m1, r1⟩ <;> rw [h1] at h
    · rcases h2 : repairTailMatch ('s' :: rest2) with _ | ⟨m2, r2⟩ <;> rw [h2] at h
      · simp at h
      · simp only [Option.some.injEq, Prod.mk.injEq] at h
        obtain ⟨hm, hr⟩ := h
        have e := repairTailMatch_eq _ _ _ h2
        rw [← hm, ← hr]
        exact ⟨by simpa using e, by simp⟩
    · simp only [Option.some.injEq, Prod.mk.injEq] at h
      obtain ⟨hm, hr⟩ := h
      have e := repairTailMatch_eq _ _ _ h1
      rw [← hm, ← hr]
      exact ⟨by simpa using e, by simp⟩
  · rename_i rest hne
    rcases h1 : repairTailMatch rest with _ | ⟨m1, r1⟩ <;> rw [h1] at h
    · simp at h
    · simp only [Option.some.injEq, Prod.mk.injEq] at h
      obtain ⟨hm, hr⟩ := h
      have e := repairTailMatch_eq _ _ _ h1
      rw [← hm, ← hr]
      exact ⟨by simpa using e, by simp⟩
  · simp at h

/-- The rest after a successful `tryRepairMatch` is strictly shorter. -/
theorem tryRepairMatch_shrinks (l m r : List Char) (h : tryRepairMatch l = some (m, r)) :
    r.length < l.length := by
  obtain ⟨e, hne⟩ := tryRepairMatch_eq _ _ _ h
  have hlen : m.length + r.length = l.length := by rw [← e]; simp
  have hm : m.length ≠ 0 := fun h0 => hne (List.eq_nil_of_length_eq_zero h0)
  omega

/-- Model of `re.sub(r"https?\s*:\s*//", lambda m: m.group(0).replace(" ", ""), s)`:
scan left to right for non-overlapping matches of the whitespace-split scheme
prefix and delete the space characters (only `' '`, as `str.replace(" ", "")`
does) inside each match. -/
def repairSchemeAux (fuel : Nat) (l : List Char) : List Char :=
  match fuel with
  | 0 => l
  | fuel + 1 =>
    match l with
    | [] => []
    | c :: rest =>
      match tryRepairMatch (c :: rest) with
      | some (m, r) => m.filter (fun ch => ch ≠ ' ') ++ repairSchemeAux fuel r
      | none => c :: repairSchemeAux fuel rest

/-- The scan itself; the fuel `l.length` is never exhausted because every step
of `repairSchemeAux` consumes at least one character (`tryRepairMatch_eq`). -/
def repairScheme (l : List Char) : List Char := repairSchemeAux l.length l

/-- Model of `_extract_agent_id` from `lmtp_handler.py`: on a missing or empty
header return the sentinel; otherwise replace angle brackets with spaces,
repair whitespace-split scheme prefixes, and return the first (leftmost) match
of the agent-id pattern, or the sentinel when there is none. -/
def extract_agent_id (raw_header : Option String) : String :=
  match raw_header with
  | none => "https://unknown/@unknown"
  | some s =>
    if s = "" then "https://unknown/@unknown"
    else
      match findFirstAgentId (repairScheme (replaceAngles s.data)) with
      | some m => ⟨m⟩
      | none => "https://unknown/@unknown"

/-- Model of `extract_sender`: agent id from the `From` header. -/
def extract_sender (m : MimeMsg) : String := extract_agent_id (headerGet m "From")

/-- Model of `extract_recipient`: agent id from the `To` header. -/
def extract_recipient (m : MimeMsg) : String := extract_agent_id (headerGet m "To")

/-- Coerce a JSON value taken from the metadata object to the `Optional[str]`
parameters of `Envelope.new` (`None` ↦ `none`; the pipeline only ever sees
strings or `None` here). -/
def jsonToOptStr : Option Json → Option String
  | some (.str s) => some s
  | _ => none

/-- Model of the body of `LMTPServer._process_message` after `message_from_bytes`
(lines 137–175 of `lmtp_server.py`): extract sender/recipient/body; when the
extracted payload is a dict, pull `context`, `inReplyTo`/`in_reply_to` (Python
`or` falls through falsy values), an ISO `time` (naive ⇒ UTC; unparsable ⇒
`now`), and unwrap a nested `payload` key; then construct the Envelope with
type `"email"`.  `now` models `datetime.now(timezone.utc)` and `envId` the
generated `uuid4` id. -/
def process_message_core (msg : MimeMsg) (now : PyDateTime) (envId : String) :
    Except PyErr Envelope :=
  match extract_body msg with
  | .error e => .error e
  | .ok payload_data =>
    match payload_data with
    | .obj kvs =>
      let context := (jlookup kvs "context").getD .null
      let in_reply_to :=
        match jlookup kvs "inReplyTo" with
        | some v => if jsonTruthy v then v else (jlookup kvs "in_reply_to").getD .null
        | none => (jlookup kvs "in_reply_to").getD .null
      let created_at :=
        match jlookup kvs "time" with
        | some (.str tv) =>
          (match fromisoformat tv.data with
           | some p => if p.utcOffsetMinutes = none then { p with utcOffsetMinutes := some 0 } else p
           | none => now)
        | _ => now
      let payload := (jlookup kvs "payload").getD (.obj kvs)
      mk_envelope envId "email" (extract_sender msg) (extract_recipient msg)
        (some payload) (some created_at) context in_reply_to "v0.1"
    | _ =>
      mk_envelope envId "email" (extract_sender msg) (extract_recipient msg)
        (some payload_data) (some now) .null .null "v0.1"

/-- Model of Python `str.strip()` (ASCII whitespace fragment). -/
def pyStrip (s : String) : String :=
  ⟨((s.data.dropWhile isPySpace).reverse.dropWhile isPySpace).reverse⟩

/-- Model of Python `str.upper()` on the ASCII range. -/
def asciiUpper (s : String) : String := ⟨s.data.map Char.toUpper⟩

/-- Model of `str.startswith`. -/
def startsWithS (s p : String) : Bool := p.data.isPrefixOf s.data

/-- Model of the slice `s[n:]`. -/
def strDrop (s : String) (n : Nat) : String := ⟨s.data.drop n⟩

/-- The two session modes of `_handle_client`: command dispatch versus DATA
accumulation (`in_data_mode`). -/
inductive LMTPMode where
  | command
  | data
deriving DecidableEq, Repr

/-- Per-connection session state of `_handle_client`: `mail_from`, `recipients`,
`in_data_mode` and the accumulated `data_lines` (raw lines, CRLF included). -/
structure Session where
  mode : LMTPMode
  mail_from : Option String
  recipients : List String
  data_lines : List String

/-- The state `_handle_client` installs after processing a DATA block:
back to command mode with everything cleared. -/
def resetSession : Session := ⟨.command, none, [], []⟩

/-- Result of feeding one input line to the session loop: the successor state,
the response lines written, whether the loop was exited (QUIT), and the
envelope persisted by `save_envelope` during this step (if any). -/
structure StepOut where
  session : Session
  responses : List String
  closed : Bool
  saved : Option Envelope

/-- Model of `raw_line in {b".\r\n", b".\n", b"."}`. -/
def isDataTerminator (raw : String) : Bool :=
  raw = ".\r\n" || raw = ".\n" || raw = "."

/-- Model of one iteration of the `_handle_client` read loop on a non-empty
line (lines 74–106 of `lmtp_server.py`).  The whole `_process_message` try
block — MIME parse, extraction, Envelope construction, `save_envelope` — is
abstracted as `process : data_lines ↦ Except PyErr Envelope` (its concrete
post-parse portion is `process_message_core`); `freshMsgId` models the
`uuid4` message id of the `250` response. -/
def stepLine (process : List String → Except PyErr Envelope) (freshMsgId : String)
    (st : Session) (raw : String) : StepOut :=
  match st.mode with
  | .data =>
    if isDataTerminator raw then
      match process st.data_lines with
      | .ok env =>
        ⟨resetSession, ["250 OK queued as " ++ freshMsgId], false, some env⟩
      | .error _ =>
        ⟨resetSession, ["451 Requested action aborted: processing error"], false, none⟩
    else if startsWithS raw ".." then
      ⟨{ st with data_lines := st.data_lines ++ [strDrop raw 1] }, [], false, none⟩
    else
      ⟨{ st with data_lines := st.data_lines ++ [raw] }, [], false, none⟩
  | .command =>
    let line := pyStrip raw
    let upper := asciiUpper line
    if startsWithS upper "LHLO" then
      ⟨st, ["250 OK"], false, none⟩
    else if startsWithS upper "MAIL FROM:" then
      ⟨{ st with mail_from := some (pyStrip (strDrop line 10)) }, ["250 OK"], false, none⟩
    else if startsWithS upper "RCPT TO:" then
      ⟨{ st with recipients := st.recipients ++ [pyStrip (strDrop line 8)] }, ["250 OK"], false, none⟩
    else if upper = "DATA" then
      ⟨{ st with mode := .data, data_lines := [] },
        ["354 Start mail input; end with <CRLF>.<CRLF>"], false, none⟩
    else if upper = "QUIT" then
      ⟨st, ["221 Bye"], true, none⟩
    else
      ⟨st, ["500 Unknown command"], false, none⟩

/-- Decimal digits of a natural number, fuel-indexed (structural recursion;
the fuel `n + 1` always suffices since `n` has at most `n + 1` digits). -/
def natCharsAux (fuel n : Nat) : List Char :=
  match fuel with
  | 0 => []
  | fuel + 1 =>
    if n < 10 then [digitChar n]
    else natCharsAux fuel (n / 10) ++ [digitChar (n % 10)]

/-- Decimal rendering of a natural number without padding (glibc `%Y`, and the
digits of an f-string). -/
def natChars (n : Nat) : List Char := natCharsAux (n + 1) n

/-- Day number of a Gregorian calendar date relative to 1970-01-01
(Howard Hinnant's `days_from_civil`, as used to model timezone conversion). -/
def daysFromCivil (y mo d : Nat) : Int :=
  let y' : Int := (y : Int) - (if mo ≤ 2 then 1 else 0)
  let era : Int := (if 0 ≤ y' then y' else y' - 399).fdiv 400
  let yoe : Int := y' - era * 400
  let mp : Int := ((mo : Int) + 9) % 12
  let doy : Int := (153 * mp + 2).fdiv 5 + (d : Int) - 1
  let doe : Int := yoe * 365 + yoe.fdiv 4 - yoe.fdiv 100 + doy
  era * 146097 + doe - 719468

/-- Gregorian calendar date from a day number relative to 1970-01-01
(Howard Hinnant's `civil_from_days`). -/
def civilFromDays (z : Int) : Nat × Nat × Nat :=
  let z' := z + 719468
  let era : Int := (if 0 ≤ z' then z' else z' - 146096).fdiv 146097
  let doe : Int := z' - era * 146097
  let yoe : Int := (doe - doe.fdiv 1460 + doe.fdiv 36524 - doe.fdiv 146096).fdiv 365
  let y : Int := yoe + era * 400
  let doy : Int := doe - (365 * yoe + yoe.fdiv 4 - yoe.fdiv 100)
  let mp : Int := (5 * doy + 2).fdiv 153
  let d : Int := doy - (153 * mp + 2).fdiv 5 + 1
  let mo : Int := if mp < 10 then mp + 3 else mp - 9
  let yAdj : Int := if mo ≤ 2 then y + 1 else y
  (yAdj.toNat, mo.toNat, d.toNat)

/-- Microseconds since the epoch denoted by an (aware) datetime: wall-clock
value minus the UTC offset.  This is the instant the datetime names, and the
creation order of envelopes. -/
def toEpochMicros (dt : PyDateTime) : Int :=
  daysFromCivil dt.year dt.month dt.day * 86400000000 +
    ((dt.hour * 3600 + dt.minute * 60 + dt.second : Nat) : Int) * 1000000 +
    (dt.microsecond : Int) - dt.utcOffsetMinutes.getD 0 * 60000000

/-- The UTC datetime denoting a given instant (microseconds since the epoch). -/
def epochMicrosToUTC (t : Int) : PyDateTime :=
  let days : Int := t.fdiv 86400000000
  let rem : Int := t - days * 86400000000
  let (y, mo, d) := civilFromDays days
  let remUs : Nat := rem.toNat
  ⟨y, mo, d, remUs / 3600000000, remUs / 60000000 % 60, remUs / 1000000 % 60,
    remUs % 1000000, some 0⟩

/-- Model of `created_at.astimezone(timezone.utc)` for the aware datetimes this
code base produces. -/
def astimezoneUTC (dt : PyDateTime) : PyDateTime := epochMicrosToUTC (toEpochMicros dt)

/-- Model of `strftime("%Y%m%dT%H%M%SZ")` on a (UTC) datetime. -/
def strftimeTs (dt : PyDateTime) : List Char :=
  natChars dt.year ++ pad2 dt.month ++ pad2 dt.day ++ 'T' ::
    (pad2 dt.hour ++ pad2 dt.minute ++ pad2 dt.second) ++ ['Z']

/-- Model of the file name chosen by `save_envelope` in `lmtp_handler.py`:
the envelope's `created_at` rendered in UTC as `YYYYMMDDTHHMMSSZ`, an
underscore, the envelope id, and the `.json` extension. -/
def save_envelope_filename (e : Envelope) : List Char :=
  strftimeTs (astimezoneUTC e.created_at) ++ '_' :: e.id.data ++ ".json".data

/-- Lexicographic (natural filename sort) strict order on character lists. -/
def lexLt : List Char → List Char → Bool
  | [], [] => false
  | [], _ :: _ => true
  | _ :: _, [] => false
  | a :: as, b :: bs => if a < b then true else if a = b then lexLt as bs else false

/-- Digit characters of digit values: well-formedness of `digitChar` below 10. -/
theorem digitChar_facts :
    ∀ d : Nat, d < 10 → isDigitChar (digitChar d) = true ∧ digitVal (digitChar d) = d := by
  decide

/-- `parse2` reads back a `pad2` rendering. -/
theorem parse2_pad2 (n : Nat) (h : n < 100) (r : List Char) :
    parse2 (pad2 n ++ r) = some (n, r) := by
  have h1 := digitChar_facts (n / 10) (by omega)
  have h2 := digitChar_facts (n % 10) (by omega)
  simp only [pad2, List.cons_append, List.nil_append, parse2, h1.1, h2.1, h1.2, h2.2,
    Bool.and_self, if_true, Option.some.injEq, Prod.mk.injEq, and_true, true_and]
  omega

/-- `parse4` reads back a `pad4` rendering. -/
theorem parse4_pad4 (n : Nat) (h : n < 10000) (r : List Char) :
    parse4 (pad4 n ++ r) = some (n, r) := by
  have e : pad4 n ++ r = pad2 (n / 100) ++ (pad2 (n % 100) ++ r) := by
    simp [pad4, List.append_assoc]
  rw [e]
  simp only [parse4, parse2_pad2 (n / 100) (by omega), parse2_pad2 (n % 100) (by omega),
    Option.some.injEq, Prod.mk.injEq, and_true, true_and]
  omega

/-- `expectChar` consumes the expected head. -/
theorem expectChar_cons (c : Char) (r : List Char) : expectChar c (c :: r) = some r := by
  simp [expectChar]

/-- Every character of a `pad2` rendering is a digit. -/
theorem pad2_all_digits (n : Nat) (h : n < 100) : ∀ c ∈ pad2 n, isDigitChar c = true := by
  intro c hc
  simp only [pad2, List.mem_cons, List.not_mem_nil, or_false] at hc
  rcases hc with h1 | h2
  · subst h1; exact (digitChar_facts _ (by omega)).1
  · subst h2; exact (digitChar_facts _ (by omega)).1

/-- Every character of a `pad6` rendering is a digit. -/
theorem pad6_all_digits (n : Nat) (h : n < 1000000) : ∀ c ∈ pad6 n, isDigitChar c = true := by
  intro c hc
  simp only [pad6, List.mem_append] at hc
  rcases hc with (h1 | h2) | h3
  · exact pad2_all_digits _ (by omega) _ h1
  · exact pad2_all_digits _ (by omega) _ h2
  · exact pad2_all_digits _ (by omega) _ h3

/-- `takeWhile` passes over a prefix whose characters all satisfy the predicate. -/
theorem takeWhile_append_all {p : Char → Bool} (l1 l2 : List Char)
    (h : ∀ c ∈ l1, p c = true) : (l1 ++ l2).takeWhile p = l1 ++ l2.takeWhile p := by
  induction l1 with
  | nil => simp
  | cons c t ih =>
    simp [List.cons_append, List.takeWhile_cons, h c (by simp), ih
      (fun c hc => h c (List.mem_cons_of_mem _ hc))]

/-- `dropWhile` skips a prefix whose characters all satisfy the predicate. -/
theorem dropWhile_append_all {p : Char → Bool} (l1 l2 : List Char)
    (h : ∀ c ∈ l1, p c = true) : (l1 ++ l2).dropWhile p = l2.dropWhile p := by
  induction l1 with
  | nil => simp
  | cons c t ih =>
    simp [List.cons_append, List.dropWhile_cons, h c (by simp), ih
      (fun c hc => h c (List.mem_cons_of_mem _ hc))]

/-- Folding decimal digits of a `pad2` rendering accumulates its value. -/
theorem foldl_pad2 (m v : Nat) (h : m < 100) :
    (pad2 m).foldl (fun v c => v * 10 + digitVal c) v = v * 100 + m := by
  simp only [pad2, List.foldl_cons, List.foldl_nil,
    (digitChar_facts (m / 10) (by omega)).2, (digitChar_facts (m % 10) (by omega)).2]
  omega

/-- Folding decimal digits of a `pad6` rendering recovers its value. -/
theorem foldl_pad6 (n : Nat) (h : n < 1000000) :
    (pad6 n).foldl (fun v c => v * 10 + digitVal c) 0 = n := by
  simp only [pad6, List.foldl_append, foldl_pad2 (n / 10000) _ (by omega),
    foldl_pad2 (n / 100 % 100) _ (by omega), foldl_pad2 (n % 100) _ (by omega)]
  omega

/-- Length of a `pad6` rendering. -/
theorem pad6_length (n : Nat) : (pad6 n).length = 6 := by
  simp [pad6, pad2]

/-- `parseFrac` reads back a `pad6` fraction when what follows starts with a
non-digit (or nothing). -/
theorem parseFrac_pad6 (n : Nat) (h : n < 1000000) (tz : List Char)
    (htz : tz = [] ∨ ∃ c t, tz = c :: t ∧ isDigitChar c = false) :
    parseFrac ('.' :: (pad6 n ++ tz)) = some (n, tz) := by
  have htake : tz.takeWhile isDigitChar = [] := by
    rcases htz with h1 | ⟨c, t, h2, h3⟩
    · simp [h1]
    · simp [h2, List.takeWhile_cons, h3]
  have hdrop : tz.dropWhile isDigitChar = tz := by
    rcases htz with h1 | ⟨c, t, h2, h3⟩
    · simp [h1]
    · simp [h2, List.dropWhile_cons, h3]
  simp only [parseFrac, takeWhile_append_all _ _ (pad6_all_digits n h),
    dropWhile_append_all _ _ (pad6_all_digits n h), htake, hdrop, List.append_nil,
    pad6_length, foldl_pad6 n h]
  norm_num

/-- The fraction step accepts an absent fraction. -/
theorem parseFracOpt_nil : parseFracOpt [] = some (0, []) := rfl

/-- The fraction step leaves an offset suffix alone. -/
theorem parseFracOpt_offset (o : Int) :
    parseFracOpt (offsetChars o) = some (0, offsetChars o) := by
  by_cases ho : o < 0 <;> simp [offsetChars, ho, parseFracOpt]

/-- The fraction step reads back a `pad6` fraction. -/
theorem parseFracOpt_pad6 (n : Nat) (h : n < 1000000) (tz : List Char)
    (htz : tz = [] ∨ ∃ c t, tz = c :: t ∧ isDigitChar c = false) :
    parseFracOpt ('.' :: (pad6 n ++ tz)) = some (n, tz) := by
  simp [parseFracOpt, parseFrac_pad6 n h tz htz]

/-- `parseOffset` reads back an `offsetChars` rendering of an offset within a day. -/
theorem parseOffset_offsetChars (o : Int) (h : o.natAbs ≤ 1439) :
    parseOffset (offsetChars o) = some (some o, []) := by
  have h60 : o.natAbs / 60 < 100 := by omega
  have hm60 : o.natAbs % 60 < 100 := by omega
  have e1 : o.natAbs / 60 ≤ 23 := by omega
  have e2 : o.natAbs % 60 ≤ 59 := by omega
  have ehm : o.natAbs / 60 * 60 + o.natAbs % 60 = o.natAbs := by omega
  by_cases ho : o < 0
  · have : offsetChars o = '-' :: (pad2 (o.natAbs / 60) ++ (':' :: pad2 (o.natAbs % 60))) := by
      simp [offsetChars, ho]
    rw [this]
    have p2 : pad2 (o.natAbs % 60) ++ ([] : List Char) = pad2 (o.natAbs % 60) := by simp
    simp only [parseOffset, parse2_pad2 _ h60, expectChar_cons]
    rw [← p2, parse2_pad2 _ hm60]
    simp only [e1, e2, decide_eq_true_eq, if_true, Option.some.injEq, Prod.mk.injEq,
      Bool.and_self, and_true, true_and]
    omega
  · have : offsetChars o = '+' :: (pad2 (o.natAbs / 60) ++ (':' :: pad2 (o.natAbs % 60))) := by
      simp [offsetChars, ho]
    rw [this]
    have p2 : pad2 (o.natAbs % 60) ++ ([] : List Char) = pad2 (o.natAbs % 60) := by simp
    simp only [parseOffset, parse2_pad2 _ h60, expectChar_cons]
    rw [← p2, parse2_pad2 _ hm60]
    simp only [e1, e2, decide_eq_true_eq, if_true, Option.some.injEq, Prod.mk.injEq,
      Bool.and_self, and_true, true_and]
    omega

/-- An absent offset suffix parses as a naive time. -/
theorem parseOffset_nil : parseOffset [] = some (none, []) := rfl

/-- An offset rendering starts with a sign, never a digit. -/
theorem offsetChars_nonDigitHead (o : Int) :
    offsetChars o = [] ∨ ∃ c t, offsetChars o = c :: t ∧ isDigitChar c = false := by
  right
  by_cases ho : o < 0
  · refine ⟨'-', pad2 (o.natAbs / 60) ++ ':' :: pad2 (o.natAbs % 60), ?_, by decide⟩
    simp [offsetChars, ho]
  · refine ⟨'+', pad2 (o.natAbs / 60) ++ ':' :: pad2 (o.natAbs % 60), ?_, by decide⟩
    simp [offsetChars, ho]

/-- Validity of a `PyDateTime`: field ranges as Python's `datetime` constructor
enforces them, and an offset (when present) strictly inside ±24 hours. -/
def DTValid (dt : PyDateTime) : Prop :=
  dtRangesOk dt.year dt.month dt.day dt.hour dt.minute dt.second dt.microsecond = true ∧
  (dt.utcOffsetMinutes = none ∨ ∃ o, dt.utcOffsetMinutes = some o ∧ o.natAbs ≤ 1439)

/-- Numeric bounds packed in `dtRangesOk`. -/
theorem dtRangesOk_bounds (y mo d h mi s us : Nat)
    (hr : dtRangesOk y mo d h mi s us = true) :
    1 ≤ y ∧ y ≤ 9999 ∧ 1 ≤ mo ∧ mo ≤ 12 ∧ 1 ≤ d ∧ d ≤ daysInMonth y mo ∧
      h ≤ 23 ∧ mi ≤ 59 ∧ s ≤ 59 ∧ us ≤ 999999 := by
  simp only [dtRangesOk, Bool.and_eq_true, decide_eq_true_eq] at hr
  tauto

/-- Months never exceed 31 days. -/
theorem daysInMonth_le (y m : Nat) : daysInMonth y m ≤ 31 := by
  unfold daysInMonth
  split
  · split <;> omega
  · split <;> omega

/-- The timestamp codec round-trips: `fromisoformat` inverts `isoformat` on
every valid datetime. -/
theorem fromisoformat_isoformat (dt : PyDateTime) (hv : DTValid dt) :
    fromisoformat (isoformat dt) = some dt := by
  obtain ⟨y, mo, d, h, mi, s, us, off⟩ := dt
  obtain ⟨hr, ho⟩ := hv
  simp only at hr ho
  obtain ⟨hb1, hb2, hb3, hb4, hb5, hb6, hb7, hb8, hb9, hb10⟩ :=
    dtRangesOk_bounds _ _ _ _ _ _ _ hr
  have hd100 : d < 100 := by
    have := daysInMonth_le y mo
    omega
  rcases ho with hnone | ⟨o, hoe, hob⟩
  all_goals subst_vars
  all_goals by_cases hus : us = 0
  · subst hus
    have eiso : isoformat ⟨y, mo, d, h, mi, s, 0, none⟩ = pad4 y ++ ('-' :: (pad2 mo ++ ('-' :: (pad2 d ++ ('T' :: (pad2 h ++ (':' :: (pad2 mi ++ (':' :: (pad2 s)))))))))) := by
      simp [isoformat, List.append_assoc, ite_true]
    have e2 : pad2 s = pad2 s ++ ([] : List Char) := by simp
    rw [eiso, e2]
    simp only [fromisoformat, parse4_pad4 y (by omega), expectChar_cons,
      parse2_pad2 mo (by omega), parse2_pad2 d hd100, parse2_pad2 h (by omega),
      parse2_pad2 mi (by omega), parse2_pad2 s (by omega), parseFracOpt_nil,
      parseOffset_nil]
    simp [hr]
  · have eiso : isoformat ⟨y, mo, d, h, mi, s, us, none⟩ = pad4 y ++ ('-' :: (pad2 mo ++ ('-' :: (pad2 d ++ ('T' :: (pad2 h ++ (':' :: (pad2 mi ++ (':' :: (pad2 s ++ ('.' :: (pad6 us ++ ([] : List Char))))))))))))) := by
      simp [isoformat, hus, List.append_assoc]
    rw [eiso]
    simp only [fromisoformat, parse4_pad4 y (by omega), expectChar_cons,
      parse2_pad2 mo (by omega), parse2_pad2 d hd100, parse2_pad2 h (by omega),
      parse2_pad2 mi (by omega), parse2_pad2 s (by omega),
      parseFracOpt_pad6 us (by omega) [] (Or.inl rfl), parseOffset_nil]
    simp [hr]
  · subst hus
    have eiso : isoformat ⟨y, mo, d, h, mi, s, 0, some o⟩ = pad4 y ++ ('-' :: (pad2 mo ++ ('-' :: (pad2 d ++ ('T' :: (pad2 h ++ (':' :: (pad2 mi ++ (':' :: (pad2 s ++ offsetChars o)))))))))) := by
      simp [isoformat, List.append_assoc, ite_true]
    rw [eiso]
    simp only [fromisoformat, parse4_pad4 y (by omega), expectChar_cons,
      parse2_pad2 mo (by omega), parse2_pad2 d hd100, parse2_pad2 h (by omega),
      parse2_pad2 mi (by omega), parse2_pad2 s (by omega), parseFracOpt_offset,
      parseOffset_offsetChars o hob]
    simp [hr]
  · have eiso : isoformat ⟨y, mo, d, h, mi, s, us, some o⟩ = pad4 y ++ ('-' :: (pad2 mo ++ ('-' :: (pad2 d ++ ('T' :: (pad2 h ++ (':' :: (pad2 mi ++ (':' :: (pad2 s ++ ('.' :: (pad6 us ++ offsetChars o)))))))))))) := by
      simp [isoformat, hus, List.append_assoc]
    rw [eiso]
    simp only [fromisoformat, parse4_pad4 y (by omega), expectChar_cons,
      parse2_pad2 mo (by omega), parse2_pad2 d hd100, parse2_pad2 h (by omega),
      parse2_pad2 mi (by omega), parse2_pad2 s (by omega),
      parseFracOpt_pad6 us (by omega) (offsetChars o) (offsetChars_nonDigitHead o),
      parseOffset_offsetChars o hob]
    simp [hr]

/-- The invariant a successfully constructed Envelope satisfies (established by
`mk_envelope`, assuming the timestamp came from Python's `datetime`): valid
agent ids, a `str`/`dict` payload, a valid timestamp, and timezone-awareness. -/
def EnvelopeValid (e : Envelope) : Prop :=
  agent_id_matches e.sender = true ∧ agent_id_matches e.recipient = true ∧
  payloadTypeOk (some e.payload) = true ∧ DTValid e.created_at ∧
  ∃ o, e.created_at.utcOffsetMinutes = some o

/-- Decoding the encoding of a valid envelope restores it exactly. -/
theorem from_json_to_json (e : Envelope) (hv : EnvelopeValid e) :
    from_json (to_json e) = .ok e := by
  obtain ⟨hs, hrec, hpl, hdtv, o, hoff⟩ := hv
  have htime := fromisoformat_isoformat e.created_at hdtv
  have l1 : jlookup (to_dict e) "time" = some (.str ⟨isoformat e.created_at⟩) := rfl
  have l2 : jlookup (to_dict e) "id" = some (.str e.id) := rfl
  have l3 : jlookup (to_dict e) "type" = some (.str e.envelope_type) := rfl
  have l4 : jlookup (to_dict e) "from" = some (.str e.sender) := rfl
  have l5 : jlookup (to_dict e) "to" = some (.str e.recipient) := rfl
  have l6 : jlookup (to_dict e) "payload" = some e.payload := rfl
  have l7 : jlookup (to_dict e) "context" = some e.context := rfl
  have l8 : jlookup (to_dict e) "inReplyTo" = some e.in_reply_to := rfl
  have l9 : jlookup (to_dict e) "version" = some (.str e.version) := rfl
  show from_dict (to_dict e) = .ok e
  rw [from_dict, l1]
  simp only [l2, l3, l4, l5, l6, l7, l8, l9, htime, Option.getD_some]
  rw [mk_envelope]
  simp [hs, hrec, hpl, hoff]

/-- A sample UTC instant (models a `datetime.now(timezone.utc)` value). -/
def dtJan2026 : PyDateTime := ⟨2026, 1, 1, 0, 0, 0, 0, some 0⟩

/-- A sample valid envelope used to instantiate the universally quantified
theorems. -/
def envSample : Envelope :=
  ⟨"id-1", "email", "https://example.com/@alice", "https://agent.local/@worker",
    .obj [("intent", .str "ping")], ⟨2026, 10, 12, 3, 4, 5, 123456, some 0⟩,
    .str "ctx-7", .null, "v0.1"⟩

/-- C6: for every validly constructed Envelope `e`,
`Envelope.from_json (e.to_json())` succeeds and yields an Envelope whose
`to_dict()` equals `e.to_dict()` field for field (in this code base even the
`"time"` strings coincide, which is within the claim's allowance). -/
theorem C6_roundtrip (e : Envelope) (hv : EnvelopeValid e) :
    ∃ e', from_json (to_json e) = .ok e' ∧ to_dict e' = to_dict e :=
  ⟨e, from_json_to_json e hv, rfl⟩

/-- Witness for C6 at a concrete valid envelope. -/
theorem C6_roundtrip_witness :
    EnvelopeValid envSample ∧
      ∃ e', from_json (to_json envSample) = .ok e' ∧ to_dict e' = to_dict envSample := by
  have hv : EnvelopeValid envSample :=
    ⟨rfl, rfl, rfl, ⟨by decide, Or.inr ⟨0, rfl, by decide⟩⟩, 0, rfl⟩
  exact ⟨hv, C6_roundtrip envSample hv⟩

/-- C5 counterexample: `"https://bad host/@na me"` violates the character
restrictions the claim states (space is neither a hostname nor a name
character, so the strict spec pattern rejects it), yet Envelope construction
accepts it, because `_validate_agent_id` only checks `^https?://[^/]+/@[^/]+$`. -/
theorem C5_counterexample :
    strict_agent_id_matches "https://bad host/@na me" = false ∧
    ∃ env, mk_envelope "x1" "email" "https://bad host/@na me" "https://bad host/@na me"
        (some (.str "hello")) (some dtJan2026) .null .null "v0.1" = .ok env := by
  exact ⟨rfl, ⟨_, rfl⟩⟩

/-- C5 amended: Envelope construction (with a well-typed payload and timestamp)
succeeds exactly when sender and recipient match the anchored pattern
`^https?://[^/]+/@[^/]+$` — scheme http or https, then a nonempty run of
arbitrary non-slash characters, `/@`, and a nonempty run of arbitrary non-slash
characters; the stricter character classes the claim states are not enforced. -/
theorem C5_amended (id ty s r : String) (pl : Json) (dt : PyDateTime) (ctx irt : Json)
    (v : String) (hpl : payloadTypeOk (some pl) = true) :
    (∃ env, mk_envelope id ty s r (some pl) (some dt) ctx irt v = .ok env) ↔
      (agent_id_matches s = true ∧ agent_id_matches r = true) := by
  unfold mk_envelope
  by_cases h1 : agent_id_matches s = true
  · by_cases h2 : agent_id_matches r = true
    · simp [h1, h2, hpl]
    · simp [h1, h2]
  · simp [h1]

/-- Witness for C5's amended theorem at concrete inputs. -/
theorem C5_amended_witness :
    payloadTypeOk (some (.str "hello")) = true ∧
      ((∃ env, mk_envelope "x1" "email" "https://bad host/@na me" "https://a/@b"
          (some (.str "hello")) (some dtJan2026) .null .null "v0.1" = .ok env) ↔
        (agent_id_matches "https://bad host/@na me" = true ∧
          agent_id_matches "https://a/@b" = true)) :=
  ⟨rfl, C5_amended "x1" "email" "https://bad host/@na me" "https://a/@b" (.str "hello")
    dtJan2026 .null .null "v0.1" rfl⟩

/-- The MIME message of the C1 failing input: a single-part `text/plain` email
whose decoded body is the JSON object text used by the repository's own
end-to-end test (`{"intent": "ping"}` — a command for the agent worker). -/
def msgPing : MimeMsg :=
  .leaf [("From", "https://example.com/@alice <agent@localhost>"),
         ("To", "https://agent.local/@worker <worker@localhost>")]
    "text/plain" "\x7b\"intent\": \"ping\"\x7d"

/-- C1: contrary to the specification, `extract_body` never attempts a JSON
parse — on a body that is a valid JSON object it returns the raw decoded text,
and the assembled Envelope's payload is that text string, not the parsed
object.  (The `isinstance(payload_data, dict)` branch of `_process_message` is
therefore unreachable, and the agent worker can never find an `intent` in a
message delivered through this pipeline, which contradicts the repository's
end-to-end ping test.) -/
theorem C1_extract_body_returns_raw_text :
    extract_body msgPing = .ok (.str "\x7b\"intent\": \"ping\"\x7d") ∧
    process_message_core msgPing dtJan2026 "env-1" =
      .ok ⟨"env-1", "email", "https://example.com/@alice", "https://agent.local/@worker",
        .str "\x7b\"intent\": \"ping\"\x7d", dtJan2026, .null, .null, "v0.1"⟩ :=
  ⟨rfl, rfl⟩

/-- C10: deserializing a record with a required field missing always raises.
`from_dict` raises `KeyError` for an absent `time` (with the source's custom
message), and — in evaluation order — for an absent `id`, `type`, `from` or
`to`; an absent `payload` yields `None`, which Envelope construction rejects
with a `TypeError`; only `context`, `inReplyTo` and `version` may be absent,
defaulting to `None`, `None` and `"v0.1"`. -/
theorem C10_from_dict_required (data : List (String × Json)) :
    (jlookup data "time" = none →
      from_dict data = .error (.keyError "Missing required field 'time'"))
  ∧ (∀ ts dt, jlookup data "time" = some (.str ts) → fromisoformat ts.data = some dt →
      ((jlookup data "id" = none → from_dict data = .error (.keyError "id"))
     ∧ (∀ idv, jlookup data "id" = some idv →
        ((jlookup data "type" = none → from_dict data = .error (.keyError "type"))
       ∧ (∀ tyv, jlookup data "type" = some tyv →
          ((jlookup data "from" = none → from_dict data = .error (.keyError "from"))
         ∧ (∀ fv, jlookup data "from" = some fv →
            ((jlookup data "to" = none → from_dict data = .error (.keyError "to"))
           ∧ (∀ idS tyS fS toS, idv = .str idS → tyv = .str tyS → fv = .str fS →
               jlookup data "to" = some (.str toS) →
               agent_id_matches fS = true → agent_id_matches toS = true →
               ((jlookup data "payload" = none → jlookup data "version" = none →
                  from_dict data =
                    .error (.typeError "payload must be a JSON object (dict) or text string"))
              ∧ (∀ pl, jlookup data "payload" = some pl → payloadTypeOk (some pl) = true →
                  jlookup data "context" = none → jlookup data "inReplyTo" = none →
                  jlookup data "version" = none →
                  ∃ env, from_dict data = .ok env ∧ env.context = .null ∧
                    env.in_reply_to = .null ∧ env.version = "v0.1"))))))))))) := by
  constructor
  · intro h
    rw [from_dict, h]
  · intro ts dt ht hdt
    constructor
    · intro h
      rw [from_dict, ht]
      simp only [hdt, h]
    · intro idv hid
      constructor
      · intro h
        rw [from_dict, ht]
        simp only [hdt, hid, h]
      · intro tyv hty
        constructor
        · intro h
          rw [from_dict, ht]
          simp only [hdt, hid, hty, h]
        · intro fv hf
          constructor
          · intro h
            rw [from_dict, ht]
            simp only [hdt, hid, hty, hf, h]
          · intro idS tyS fS toS hidS htyS hfS hto hfok htook
            subst hidS; subst htyS; subst hfS
            constructor
            · intro h hver
              rw [from_dict, ht]
              simp only [hdt, hid, hty, hf, hto, h, hver, Option.getD_none]
              rw [mk_envelope]
              simp [hfok, htook, payloadTypeOk]
              exact fun pl dt1 hc hd => Option.noConfusion hc
            · intro pl hpl hplok hctx hirt hver
              rw [from_dict, ht]
              simp only [hdt, hid, hty, hf, hto, hpl, hctx, hirt, hver, Option.getD_none,
                Option.getD_some]
              rw [mk_envelope]
              simp only [hfok, htook, hplok, Bool.not_true, if_false]
              exact ⟨_, rfl, rfl, rfl, rfl⟩

/-- A record missing `time`. -/
def dictNoTime : List (String × Json) := [("id", .str "i")]

/-- A record with only `time`. -/
def dictNoId : List (String × Json) := [("time", .str "2026-01-01T00:00:00+00:00")]

/-- A record with all required fields except `payload`. -/
def dictNoPayload : List (String × Json) :=
  [("time", .str "2026-01-01T00:00:00+00:00"), ("id", .str "i"), ("type", .str "email"),
   ("from", .str "https://a/@b"), ("to", .str "https://a/@c")]

/-- A full record without the optional `context`/`inReplyTo`/`version`. -/
def dictDefaults : List (String × Json) :=
  [("time", .str "2026-01-01T00:00:00+00:00"), ("id", .str "i"), ("type", .str "email"),
   ("from", .str "https://a/@b"), ("to", .str "https://a/@c"), ("payload", .str "hi")]

/-- Witness for C10 on concrete records: missing `time` and missing `id` raise
`KeyError`, missing `payload` raises `TypeError`, and the optional fields
default. -/
theorem C10_from_dict_required_witness :
    from_dict dictNoTime = .error (.keyError "Missing required field 'time'") ∧
    from_dict dictNoId = .error (.keyError "id") ∧
    from_dict dictNoPayload =
      .error (.typeError "payload must be a JSON object (dict) or text string") ∧
    ∃ env, from_dict dictDefaults = .ok env ∧ env.context = .null ∧
      env.in_reply_to = .null ∧ env.version = "v0.1" := by
  refine ⟨(C10_from_dict_required dictNoTime).1 rfl, ?_, ?_, ?_⟩
  · exact (((C10_from_dict_required dictNoId).2 "2026-01-01T00:00:00+00:00"
      ⟨2026, 1, 1, 0, 0, 0, 0, some 0⟩ rfl rfl).1 rfl)
  · exact (((((((C10_from_dict_required dictNoPayload).2 "2026-01-01T00:00:00+00:00"
      ⟨2026, 1, 1, 0, 0, 0, 0, some 0⟩ rfl rfl).2 (.str "i") rfl).2 (.str "email") rfl).2
      (.str "https://a/@b") rfl).2 "i" "email" "https://a/@b" "https://a/@c"
      rfl rfl rfl rfl rfl rfl).1 rfl rfl)
  · exact (((((((C10_from_dict_required dictDefaults).2 "2026-01-01T00:00:00+00:00"
      ⟨2026, 1, 1, 0, 0, 0, 0, some 0⟩ rfl rfl).2 (.str "i") rfl).2 (.str "email") rfl).2
      (.str "https://a/@b") rfl).2 "i" "email" "https://a/@b" "https://a/@c"
      rfl rfl rfl rfl rfl rfl).2 (.str "hi") rfl rfl rfl rfl rfl)

/-- Two candidate prefixes with different first characters exclude each other. -/
theorem startsWithS_excl (s : String) (p q : String) (a b : Char) (ap bq : List Char)
    (hp : p.data = a :: ap) (hq : q.data = b :: bq) (hab : a ≠ b)
    (h : startsWithS s p = true) : startsWithS s q = false := by
  unfold startsWithS at h ⊢
  rw [hp] at h
  rw [hq]
  cases hd : s.data with
  | nil => rw [hd] at h; simp [List.isPrefixOf] at h
  | cons c t =>
    rw [hd] at h
    simp only [List.isPrefixOf, Bool.and_eq_true, beq_iff_eq] at h
    simp only [List.isPrefixOf, Bool.and_eq_false_iff, beq_eq_false_iff_ne, ne_eq]
    left
    rw [← h.1]
    exact fun hba => hab hba.symm

/-- C2: in COMMAND mode the step function follows the transition table:
`LHLO*` ⇒ `250 OK`; `MAIL FROM:*` stores the trimmed substring after the 10th
character and replies `250 OK`; `RCPT TO:*` appends the trimmed substring after
the 8th character and replies `250 OK`; `DATA` clears the buffer, replies
`354 ...` and enters DATA mode; `QUIT` replies `221 Bye` and closes; anything
else gets `500 Unknown command` with the state unchanged.  All keyword tests
are on the upper-cased stripped line (case-insensitive). -/
theorem C2_command_transitions (process : List String → Except PyErr Envelope)
    (mid : String) (st : Session) (raw : String) (hmode : st.mode = .command) :
    ((startsWithS (asciiUpper (pyStrip raw)) "LHLO" = true →
       stepLine process mid st raw = ⟨st, ["250 OK"], false, none⟩)
   ∧ (startsWithS (asciiUpper (pyStrip raw)) "MAIL FROM:" = true →
       stepLine process mid st raw =
         ⟨{ st with mail_from := some (pyStrip (strDrop (pyStrip raw) 10)) },
           ["250 OK"], false, none⟩)
   ∧ (startsWithS (asciiUpper (pyStrip raw)) "RCPT TO:" = true →
       stepLine process mid st raw =
         ⟨{ st with recipients := st.recipients ++ [pyStrip (strDrop (pyStrip raw) 8)] },
           ["250 OK"], false, none⟩)
   ∧ (asciiUpper (pyStrip raw) = "DATA" →
       stepLine process mid st raw =
         ⟨{ st with mode := .data, data_lines := [] },
           ["354 Start mail input; end with <CRLF>.<CRLF>"], false, none⟩)
   ∧ (asciiUpper (pyStrip raw) = "QUIT" →
       stepLine process mid st raw = ⟨st, ["221 Bye"], true, none⟩)
   ∧ (startsWithS (asciiUpper (pyStrip raw)) "LHLO" = false →
      startsWithS (asciiUpper (pyStrip raw)) "MAIL FROM:" = false →
      startsWithS (asciiUpper (pyStrip raw)) "RCPT TO:" = false →
      asciiUpper (pyStrip raw) ≠ "DATA" → asciiUpper (pyStrip raw) ≠ "QUIT" →
       stepLine process mid st raw = ⟨st, ["500 Unknown command"], false, none⟩)) := by
  obtain ⟨mode, mf, rcpts, dls⟩ := st
  simp only at hmode
  subst hmode
  refine ⟨?_, ?_, ?_, ?_, ?_, ?_⟩
  · intro h
    simp [stepLine, h]
  · intro h
    have hL := startsWithS_excl _ "MAIL FROM:" "LHLO" 'M' 'L' _ _ rfl rfl (by decide) h
    simp [stepLine, h, hL]
  · intro h
    have hL := startsWithS_excl _ "RCPT TO:" "LHLO" 'R' 'L' _ _ rfl rfl (by decide) h
    have hM := startsWithS_excl _ "RCPT TO:" "MAIL FROM:" 'R' 'M' _ _ rfl rfl (by decide) h
    simp [stepLine, h, hL, hM]
  · intro h
    simp [stepLine, h, show startsWithS "DATA" "LHLO" = false from rfl,
      show startsWithS "DATA" "MAIL FROM:" = false from rfl,
      show startsWithS "DATA" "RCPT TO:" = false from rfl]
  · intro h
    simp [stepLine, h, show startsWithS "QUIT" "LHLO" = false from rfl,
      show startsWithS "QUIT" "MAIL FROM:" = false from rfl,
      show startsWithS "QUIT" "RCPT TO:" = false from rfl,
      show ("QUIT" : String) ≠ "DATA" from by decide]
  · intro h1 h2 h3 h4 h5
    simp [stepLine, h1, h2, h3, h4, h5]

/-- A pipeline stub that always fails (any exception inside the try block). -/
def procFail : List String → Except PyErr Envelope := fun _ => .error (.typeError "boom")

/-- Witness for C2: a concrete `MAIL FROM:` line on a fresh session. -/
theorem C2_command_transitions_witness :
    stepLine procFail "m1" ⟨.command, none, [], []⟩ "mail from: <a@b>  \r\n" =
      ⟨⟨.command, some "<a@b>", [], []⟩, ["250 OK"], false, none⟩ :=
  (C2_command_transitions procFail "m1" ⟨.command, none, [], []⟩
    "mail from: <a@b>  \r\n" rfl).2.1 rfl

/-- C3: in DATA mode, a lone `.` line (with CRLF, LF or nothing) is not stored:
it runs the pipeline on the buffer as accumulated and resets the session; a
line starting with `..` is appended with exactly one leading dot stripped; any
other line is appended verbatim. -/
theorem C3_data_transitions (process : List String → Except PyErr Envelope)
    (mid : String) (st : Session) (raw : String) (hmode : st.mode = .data) :
    ((isDataTerminator raw = true →
       stepLine process mid st raw =
         (match process st.data_lines with
          | .ok env => ⟨resetSession, ["250 OK queued as " ++ mid], false, some env⟩
          | .error _ =>
            ⟨resetSession, ["451 Requested action aborted: processing error"], false, none⟩))
   ∧ (isDataTerminator raw = false → startsWithS raw ".." = true →
       stepLine process mid st raw =
         ⟨{ st with data_lines := st.data_lines ++ [strDrop raw 1] }, [], false, none⟩)
   ∧ (isDataTerminator raw = false → startsWithS raw ".." = false →
       stepLine process mid st raw =
         ⟨{ st with data_lines := st.data_lines ++ [raw] }, [], false, none⟩)) := by
  obtain ⟨mode, mf, rcpts, dls⟩ := st
  simp only at hmode
  subst hmode
  refine ⟨?_, ?_, ?_⟩
  · intro h
    simp only [stepLine, h, if_true]
  · intro h1 h2
    simp [stepLine, h1, h2]
  · intro h1 h2
    simp [stepLine, h1, h2]

/-- Witness for C3: dot-unstuffing of a concrete `..hello` line. -/
theorem C3_data_transitions_witness :
    stepLine procFail "m1" ⟨.data, some "f", ["r"], ["a\r\n"]⟩ "..hello\r\n" =
      ⟨⟨.data, some "f", ["r"], ["a\r\n", ".hello\r\n"]⟩, [], false, none⟩ :=
  (C3_data_transitions procFail "m1" ⟨.data, some "f", ["r"], ["a\r\n"]⟩
    "..hello\r\n" rfl).2.1 rfl rfl

/-- C4: when the processing pipeline raises on a completed DATA block, the
session responds with exactly `451 Requested action aborted: processing error`,
persists no envelope, does not close the connection, and returns to COMMAND
mode with the transaction state cleared. -/
theorem C4_processing_error_isolated (process : List String → Except PyErr Envelope)
    (mid : String) (st : Session) (raw : String) (err : PyErr) (hmode : st.mode = .data)
    (hterm : isDataTerminator raw = true) (herr : process st.data_lines = .error err) :
    stepLine process mid st raw =
      ⟨⟨.command, none, [], []⟩, ["451 Requested action aborted: processing error"],
        false, none⟩ := by
  obtain ⟨mode, mf, rcpts, dls⟩ := st
  simp only at hmode herr
  subst hmode
  simp [stepLine, hterm, herr, resetSession]

/-- Witness for C4 with a concrete failing pipeline and a buffered session. -/
theorem C4_processing_error_isolated_witness :
    stepLine procFail "m1" ⟨.data, some "f", ["r"], ["bad mime\r\n"]⟩ ".\r\n" =
      ⟨⟨.command, none, [], []⟩, ["451 Requested action aborted: processing error"],
        false, none⟩ :=
  C4_processing_error_isolated procFail "m1" ⟨.data, some "f", ["r"], ["bad mime\r\n"]⟩
    ".\r\n" (.typeError "boom") rfl rfl rfl

/-- C9: after any DATA terminator — whether the pipeline succeeded or failed —
the session is reset identically: COMMAND mode, `mail_from = None`, no
recipients, empty buffer, and the connection stays open. -/
theorem C9_reset_after_data_block (process : List String → Except PyErr Envelope)
    (mid : String) (st : Session) (raw : String) (hmode : st.mode = .data)
    (hterm : isDataTerminator raw = true) :
    (stepLine process mid st raw).session.mode = .command ∧
    (stepLine process mid st raw).session.mail_from = none ∧
    (stepLine process mid st raw).session.recipients = [] ∧
    (stepLine process mid st raw).session.data_lines = [] ∧
    (stepLine process mid st raw).closed = false := by
  obtain ⟨mode, mf, rcpts, dls⟩ := st
  simp only at hmode
  subst hmode
  simp only [stepLine, hterm, if_true]
  cases process dls <;> simp [resetSession]

/-- A pipeline stub that always succeeds. -/
def procOk : List String → Except PyErr Envelope := fun _ => .ok envSample

/-- Witness for C9: both a succeeding and a failing pipeline reset the session. -/
theorem C9_reset_after_data_block_witness :
    ((stepLine procOk "m1" ⟨.data, some "f", ["r"], ["x\r\n"]⟩ ".\r\n").session.mode
        = .command ∧
      (stepLine procOk "m1" ⟨.data, some "f", ["r"], ["x\r\n"]⟩ ".\r\n").session.mail_from
        = none ∧
      (stepLine procOk "m1" ⟨.data, some "f", ["r"], ["x\r\n"]⟩ ".\r\n").session.recipients
        = [] ∧
      (stepLine procOk "m1" ⟨.data, some "f", ["r"], ["x\r\n"]⟩ ".\r\n").session.data_lines
        = [] ∧
      (stepLine procOk "m1" ⟨.data, some "f", ["r"], ["x\r\n"]⟩ ".\r\n").closed = false) ∧
    ((stepLine procFail "m1" ⟨.data, some "f", ["r"], ["x\r\n"]⟩ ".").session.mode
        = .command ∧
      (stepLine procFail "m1" ⟨.data, some "f", ["r"], ["x\r\n"]⟩ ".").session.mail_from
        = none ∧
      (stepLine procFail "m1" ⟨.data, some "f", ["r"], ["x\r\n"]⟩ ".").session.recipients
        = [] ∧
      (stepLine procFail "m1" ⟨.data, some "f", ["r"], ["x\r\n"]⟩ ".").session.data_lines
        = [] ∧
      (stepLine procFail "m1" ⟨.data, some "f", ["r"], ["x\r\n"]⟩ ".").closed = false) :=
  ⟨C9_reset_after_data_block procOk "m1" ⟨.data, some "f", ["r"], ["x\r\n"]⟩ ".\r\n" rfl rfl,
   C9_reset_after_data_block procFail "m1" ⟨.data, some "f", ["r"], ["x\r\n"]⟩ "." rfl rfl⟩

/-- Shape of a successful `matchFromScheme`: scheme, `://`, a nonempty host of
host characters, `/@`, and a nonempty name of name characters. -/
theorem matchFromScheme_shape (scheme l m : List Char)
    (h : matchFromScheme scheme l = some m) :
    ∃ host name, m = scheme ++ ':' :: '/' :: '/' :: (host ++ '/' :: '@' :: name) ∧
      host ≠ [] ∧ name ≠ [] ∧ (∀ c ∈ host, isHostChar c = true) ∧
      (∀ c ∈ name, isNameChar c = true) := by
  unfold matchFromScheme at h
  split at h
  · rename_i r
    by_cases hhost : r.takeWhile isHostChar = []
    · rw [if_pos hhost] at h
      exact absurd h (by simp)
    · rw [if_neg hhost] at h
      split at h
      · rename_i r3 hdrop
        by_cases hname : r3.takeWhile isNameChar = []
        · rw [if_pos hname] at h
          exact absurd h (by simp)
        · rw [if_neg hname] at h
          simp only [Option.some.injEq] at h
          refine ⟨r.takeWhile isHostChar, r3.takeWhile isNameChar, ?_, hhost, hname, ?_, ?_⟩
          · rw [← h]
            simp
          · exact fun c hc => List.mem_takeWhile_imp hc
          · exact fun c hc => List.mem_takeWhile_imp hc
      · exact absurd h (by simp)
  · exact absurd h (by simp)

/-- Evaluation of the strict anchored check on the tail shape produced by a
successful match. -/
theorem strictTail_of_parts (host name : List Char) (hhost : host ≠ []) (hname : name ≠ [])
    (hhc : ∀ c ∈ host, isHostChar c = true) (hnc : ∀ c ∈ name, isNameChar c = true) :
    strict_agent_id_matches.strictTail (':' :: '/' :: '/' :: (host ++ '/' :: '@' :: name))
      = true := by
  have hslash : isHostChar '/' = false := by decide
  have ht : (host ++ '/' :: '@' :: name).takeWhile isHostChar = host := by
    rw [takeWhile_append_all _ _ hhc]
    simp [List.takeWhile_cons, hslash]
  have hd : (host ++ '/' :: '@' :: name).dropWhile isHostChar = '/' :: '@' :: name := by
    rw [dropWhile_append_all _ _ hhc]
    simp [List.dropWhile_cons, hslash]
  unfold strict_agent_id_matches.strictTail
  simp only [ht, hd, hhost, hname, List.all_eq_true, ne_eq, not_false_eq_true, decide_True,
    Bool.true_and, Bool.and_eq_true, decide_eq_true_eq]
  exact hnc

/-- The last element of a list with a given nonempty suffix. -/
theorem getLast?_append_some {l1 l2 : List Char} {c : Char} (h : l2.getLast? = some c) :
    (l1 ++ l2).getLast? = some c := by
  rw [List.getLast?_append, h]
  rfl

/-- A match of the extractor pattern has the strict agent-id shape and never
ends in a slash. -/
theorem tryMatchAgent_shape (l m : List Char) (h : tryMatchAgent l = some m) :
    strict_agent_id_matches ⟨m⟩ = true ∧ m.getLast? ≠ some '/' := by
  have main : ∀ scheme tail, matchFromScheme scheme tail = some m →
      (scheme = ['h', 't', 't', 'p'] ∨ scheme = ['h', 't', 't', 'p', 's']) →
      strict_agent_id_matches ⟨m⟩ = true ∧ m.getLast? ≠ some '/' := by
    intro scheme tail hm hsch
    obtain ⟨host, name, hshape, hhost, hname, hhc, hnc⟩ :=
      matchFromScheme_shape scheme tail m hm
    have hstrict := strictTail_of_parts host name hhost hname hhc hnc
    constructor
    · rcases hsch with hs | hs <;> subst hs <;> subst hshape <;>
        simp only [List.cons_append, List.nil_append, strict_agent_id_matches] <;>
        exact hstrict
    · subst hshape
      rcases hlast : name.getLast? with _ | c
      · exact absurd (List.getLast?_eq_none_iff.mp hlast) hname
      · have hcmem : c ∈ name := by
          obtain ⟨hh, rfl⟩ := List.mem_getLast?_eq_getLast (x := c) hlast
          exact List.getLast_mem hh
        have hcname := hnc c hcmem
        have hsplit : scheme ++ ':' :: '/' :: '/' :: (host ++ '/' :: '@' :: name) =
            (scheme ++ ':' :: '/' :: '/' :: (host ++ ['/', '@'])) ++ name := by
          simp
        rw [hsplit, getLast?_append_some hlast]
        intro hcc
        simp only [Option.some.injEq] at hcc
        subst hcc
        simp [isNameChar, isHostChar] at hcname
  unfold tryMatchAgent at h
  split at h
  · split at h
    · split at h
      · rename_i hm1
        simp only [Option.some.injEq] at h
        subst h
        exact main _ _ hm1 (Or.inr rfl)
      · exact main _ _ h (Or.inl rfl)
    · exact main _ _ h (Or.inl rfl)
  · exact absurd h (by simp)

/-- The leftmost search propagates the shape of a match. -/
theorem findFirstAgentId_shape (l m : List Char) (h : findFirstAgentId l = some m) :
    strict_agent_id_matches ⟨m⟩ = true ∧ m.getLast? ≠ some '/' := by
  induction l with
  | nil => simp [findFirstAgentId] at h
  | cons c t ih =>
    unfold findFirstAgentId at h
    split at h
    · rename_i hm1
      simp only [Option.some.injEq] at h
      subst h
      exact tryMatchAgent_shape _ _ hm1
    · exact ih h

/-- C7: the agent-id extractor is total.  An absent or empty header yields
exactly the sentinel `https://unknown/@unknown`; when the sanitized header
(angle brackets replaced by spaces, whitespace-split scheme prefixes repaired)
contains a match of the agent-id pattern, the extractor returns the first such
match — which always has the `scheme://host/@name` shape with the restricted
character classes and never carries a trailing slash — and when there is no
match it degrades to the sentinel. -/
theorem C7_extract_agent_id_total :
    extract_agent_id none = "https://unknown/@unknown" ∧
    extract_agent_id (some "") = "https://unknown/@unknown" ∧
    (∀ s, s ≠ "" → findFirstAgentId (repairScheme (replaceAngles s.data)) = none →
      extract_agent_id (some s) = "https://unknown/@unknown") ∧
    (∀ s m, s ≠ "" → findFirstAgentId (repairScheme (replaceAngles s.data)) = some m →
      extract_agent_id (some s) = ⟨m⟩ ∧ strict_agent_id_matches ⟨m⟩ = true ∧
        m.getLast? ≠ some '/') := by
  refine ⟨rfl, rfl, ?_, ?_⟩
  · intro s hs hnone
    simp [extract_agent_id, hs, hnone]
  · intro s m hs hm
    obtain ⟨h1, h2⟩ := findFirstAgentId_shape _ _ hm
    refine ⟨?_, h1, h2⟩
    simp [extract_agent_id, hs, hm]

/-- Witness for C7 on the spec's own example header. -/
theorem C7_extract_agent_id_total_witness :
    extract_agent_id (some "Alice <https://example.com/@alice>") =
        ⟨"https://example.com/@alice".data⟩ ∧
      strict_agent_id_matches ⟨"https://example.com/@alice".data⟩ = true ∧
      "https://example.com/@alice".data.getLast? ≠ some '/' :=
  C7_extract_agent_id_total.2.2.2 "Alice <https://example.com/@alice>"
    "https://example.com/@alice".data (by decide) rfl

/-- A shared prefix cancels in the lexicographic comparison. -/
theorem lexLt_append_same (xs ys zs : List Char) :
    lexLt (xs ++ ys) (xs ++ zs) = lexLt ys zs := by
  induction xs with
  | nil => rfl
  | cons c t ih => simp [lexLt, ih, lt_irrefl]

/-- Consing the same character preserves the comparison. -/
theorem lexLt_cons_same (c : Char) (ys zs : List Char) :
    lexLt (c :: ys) (c :: zs) = lexLt ys zs :=
  lexLt_append_same [c] ys zs

/-- A strictly smaller prefix of equal length decides the comparison. -/
theorem lexLt_append_of_lt (xs zs : List Char) (hl : xs.length = zs.length)
    (hlt : lexLt xs zs = true) (ys ws : List Char) :
    lexLt (xs ++ ys) (zs ++ ws) = true := by
  induction xs generalizing zs with
  | nil =>
    cases zs with
    | nil => simp [lexLt] at hlt
    | cons c t => simp at hl
  | cons c t ih =>
    cases zs with
    | nil => simp at hl
    | cons c' t' =>
      simp only [List.length_cons, Nat.succ.injEq] at hl
      simp only [lexLt, List.cons_append] at hlt ⊢
      by_cases hc : c < c'
      · simp [hc]
      · simp only [hc, if_false] at hlt ⊢
        by_cases hce : c = c'
        · simp only [hce, if_true] at hlt ⊢
          exact ih t' hl hlt
        · simp [hce] at hlt

/-- Monotonicity of `digitChar` on digit values. -/
theorem digitChar_lt :
    ∀ a, a < 10 → ∀ b, b < 10 → a < b → digitChar a < digitChar b := by
  decide

/-- Two-digit zero-padded renderings compare like their values. -/
theorem pad2_lt (a b : Nat) (hb : b < 100) (hab : a < b) :
    lexLt (pad2 a) (pad2 b) = true := by
  have h10a : a / 10 < 10 := by omega
  have h10b : b / 10 < 10 := by omega
  by_cases hhi : a / 10 < b / 10
  · have := digitChar_lt (a / 10) h10a (b / 10) h10b hhi
    simp [pad2, lexLt, this]
  · have hhieq : a / 10 = b / 10 := by omega
    have hlo : a % 10 < b % 10 := by omega
    have := digitChar_lt (a % 10) (by omega) (b % 10) (by omega) hlo
    simp [pad2, lexLt, hhieq, lt_irrefl, this]

/-- Four-digit zero-padded renderings compare like their values. -/
theorem pad4_lt (a b : Nat) (hb : b < 10000) (hab : a < b) :
    lexLt (pad4 a) (pad4 b) = true := by
  by_cases hhi : a / 100 < b / 100
  · exact lexLt_append_of_lt (pad2 (a / 100)) (pad2 (b / 100)) (by simp [pad2])
      (pad2_lt _ _ (by omega) hhi) _ _
  · have hhieq : a / 100 = b / 100 := by omega
    have hlo : a % 100 < b % 100 := by omega
    unfold pad4
    rw [hhieq, lexLt_append_same]
    exact pad2_lt _ _ (by omega) hlo

/-- Unfolding of the fuel-indexed digit renderer at positive fuel. -/
theorem natCharsAux_pos (fuel n : Nat) (h : 0 < fuel) :
    natCharsAux fuel n =
      if n < 10 then [digitChar n]
      else natCharsAux (fuel - 1) (n / 10) ++ [digitChar (n % 10)] := by
  cases fuel with
  | zero => omega
  | succ f => rfl

/-- On four-digit numbers the unpadded decimal rendering is the four-digit one. -/
theorem natChars_eq_pad4 (y : Nat) (h1 : 1000 ≤ y) (h2 : y ≤ 9999) :
    natChars y = pad4 y := by
  have d1 : y / 10 / 10 = y / 100 := by rw [Nat.div_div_eq_div_mul]
  have d2 : y / 100 / 10 = y / 1000 := by rw [Nat.div_div_eq_div_mul]
  have e0 : natChars y = natCharsAux y (y / 10) ++ [digitChar (y % 10)] := by
    rw [natChars, natCharsAux_pos _ _ (by omega), if_neg (by omega)]
    simp
  have e1 : natCharsAux y (y / 10) =
      natCharsAux (y - 1) (y / 100) ++ [digitChar (y / 10 % 10)] := by
    rw [natCharsAux_pos _ _ (by omega), if_neg (by omega), d1]
  have e2 : natCharsAux (y - 1) (y / 100) =
      natCharsAux (y - 1 - 1) (y / 1000) ++ [digitChar (y / 100 % 10)] := by
    rw [natCharsAux_pos _ _ (by omega), if_neg (by omega), d2]
  have e3 : natCharsAux (y - 1 - 1) (y / 1000) = [digitChar (y / 1000)] := by
    rw [natCharsAux_pos _ _ (by omega), if_pos (by omega)]
  have p4 : pad4 y = [digitChar (y / 1000), digitChar (y / 100 % 10),
      digitChar (y / 10 % 10), digitChar (y % 10)] := by
    have a1 : y / 100 / 10 = y / 1000 := d2
    have a2 : y % 100 / 10 = y / 10 % 10 := by omega
    have a3 : y % 100 % 10 = y % 10 := by omega
    simp [pad4, pad2, a1, a2, a3]
  rw [e0, e1, e2, e3, p4]
  simp

/-- Bounds on a rendered timestamp's fields: a four-digit year and two-digit
remaining fields (every value `astimezoneUTC` produces in the datetime range
satisfies this; witnesses discharge it by computation). -/
def tsBounded (dt : PyDateTime) : Prop :=
  1000 ≤ dt.year ∧ dt.year ≤ 9999 ∧ dt.month < 100 ∧ dt.day < 100 ∧
    dt.hour < 100 ∧ dt.minute < 100 ∧ dt.second < 100

/-- Strict lexicographic order on the second-resolution timestamp tuple —
the granularity the `strftime` format records. -/
def tsTupleLt (a b : PyDateTime) : Prop :=
  a.year < b.year ∨ (a.year = b.year ∧
    (a.month < b.month ∨ (a.month = b.month ∧
      (a.day < b.day ∨ (a.day = b.day ∧
        (a.hour < b.hour ∨ (a.hour = b.hour ∧
          (a.minute < b.minute ∨ (a.minute = b.minute ∧ a.second < b.second)))))))))

/-- Normal form of the `strftime` rendering under the field bounds. -/
theorem strftimeTs_norm (dt : PyDateTime) (h : tsBounded dt) :
    strftimeTs dt =
      pad4 dt.year ++ (pad2 dt.month ++ (pad2 dt.day ++ ('T' :: (pad2 dt.hour ++
        (pad2 dt.minute ++ (pad2 dt.second ++ ['Z'])))))) := by
  rw [strftimeTs, natChars_eq_pad4 _ h.1 h.2.1]
  simp [List.append_assoc]

/-- Length of the `strftime` rendering under the field bounds. -/
theorem strftimeTs_length (dt : PyDateTime) (h : tsBounded dt) :
    (strftimeTs dt).length = 16 := by
  rw [strftimeTs_norm dt h]
  simp [pad4, pad2]

/-- The `strftime` renderings of second-level-ordered timestamps compare
lexicographically in the same order, whatever follows them. -/
theorem strftimeTs_lt (a b : PyDateTime) (ha : tsBounded a) (hb : tsBounded b)
    (hlt : tsTupleLt a b) (ys ws : List Char) :
    lexLt (strftimeTs a ++ ys) (strftimeTs b ++ ws) = true := by
  obtain ⟨ha1, ha2, ha3, ha4, ha5, ha6, ha7⟩ := ha
  obtain ⟨hb1, hb2, hb3, hb4, hb5, hb6, hb7⟩ := hb
  rw [strftimeTs_norm a ⟨ha1, ha2, ha3, ha4, ha5, ha6, ha7⟩,
    strftimeTs_norm b ⟨hb1, hb2, hb3, hb4, hb5, hb6, hb7⟩]
  simp only [List.append_assoc, List.cons_append]
  rcases hlt with hy | ⟨hy, hmo | ⟨hmo, hd | ⟨hd, hh | ⟨hh, hmi | ⟨hmi, hs⟩⟩⟩⟩⟩
  · exact lexLt_append_of_lt (pad4 a.year) (pad4 b.year) (by simp [pad4, pad2])
      (pad4_lt _ _ (by omega) hy) _ _
  · rw [hy, lexLt_append_same]
    exact lexLt_append_of_lt (pad2 a.month) (pad2 b.month) (by simp [pad2])
      (pad2_lt _ _ hb3 hmo) _ _
  · rw [hy, hmo, lexLt_append_same, lexLt_append_same]
    exact lexLt_append_of_lt (pad2 a.day) (pad2 b.day) (by simp [pad2])
      (pad2_lt _ _ hb4 hd) _ _
  · rw [hy, hmo, hd, lexLt_append_same, lexLt_append_same, lexLt_append_same,
      lexLt_cons_same]
    exact lexLt_append_of_lt (pad2 a.hour) (pad2 b.hour) (by simp [pad2])
      (pad2_lt _ _ hb5 hh) _ _
  · rw [hy, hmo, hd, hh, lexLt_append_same, lexLt_append_same, lexLt_append_same,
      lexLt_cons_same, lexLt_append_same]
    exact lexLt_append_of_lt (pad2 a.minute) (pad2 b.minute) (by simp [pad2])
      (pad2_lt _ _ hb6 hmi) _ _
  · rw [hy, hmo, hd, hh, hmi, lexLt_append_same, lexLt_append_same, lexLt_append_same,
      lexLt_cons_same, lexLt_append_same, lexLt_append_same]
    exact lexLt_append_of_lt (pad2 a.second) (pad2 b.second) (by simp [pad2])
      (pad2_lt _ _ hb7 hs) _ _

/-- First envelope of the C8 counterexample: created earlier within the second
(microsecond 1), id `"b"`. -/
def envC8a : Envelope :=
  ⟨"b", "email", "https://a/@b", "https://a/@c", .str "x",
    ⟨2026, 1, 1, 0, 0, 0, 1, some 0⟩, .null, .null, "v0.1"⟩

/-- Second envelope of the C8 counterexample: created later within the same
second (microsecond 2), id `"a"`. -/
def envC8b : Envelope :=
  ⟨"a", "email", "https://a/@b", "https://a/@c", .str "x",
    ⟨2026, 1, 1, 0, 0, 0, 2, some 0⟩, .null, .null, "v0.1"⟩

/-- C8 counterexample: two envelopes created within the same UTC second.
`envC8a` is created strictly before `envC8b` (smaller instant), yet
`envC8b`'s queue file name sorts strictly before `envC8a`'s, because within a
second the name order is decided by the random envelope id — so lexicographic
filename order does not equal creation order. -/
theorem C8_counterexample :
    toEpochMicros envC8a.created_at < toEpochMicros envC8b.created_at ∧
    lexLt (save_envelope_filename envC8b) (save_envelope_filename envC8a) = true := by
  exact ⟨by decide, rfl⟩

/-- The queue file name, right-nested: the 16-character timestamp prefix
followed by underscore, id, extension. -/
theorem save_envelope_filename_norm (e : Envelope) :
    save_envelope_filename e =
      strftimeTs (astimezoneUTC e.created_at) ++ ('_' :: (e.id.data ++ ".json".data)) := by
  simp [save_envelope_filename, List.append_assoc]

/-- C8 amended: queue file names are `<UTC created_at as YYYYMMDDTHHMMSSZ>_<id>.json`
by construction; distinct ids never collide; and the natural filename sort
order agrees with creation order whenever the creation instants differ at the
rendered (UTC, second-level) granularity — within the same second the order is
decided by the id alone. -/
theorem C8_filename_order (e1 e2 : Envelope)
    (h1 : tsBounded (astimezoneUTC e1.created_at))
    (h2 : tsBounded (astimezoneUTC e2.created_at)) :
    (tsTupleLt (astimezoneUTC e1.created_at) (astimezoneUTC e2.created_at) →
      lexLt (save_envelope_filename e1) (save_envelope_filename e2) = true) ∧
    (e1.id ≠ e2.id → save_envelope_filename e1 ≠ save_envelope_filename e2) := by
  constructor
  · intro hlt
    rw [save_envelope_filename_norm, save_envelope_filename_norm]
    exact strftimeTs_lt _ _ h1 h2 hlt _ _
  · intro hid heq
    rw [save_envelope_filename_norm, save_envelope_filename_norm] at heq
    have hlen : (strftimeTs (astimezoneUTC e1.created_at)).length =
        (strftimeTs (astimezoneUTC e2.created_at)).length := by
      rw [strftimeTs_length _ h1, strftimeTs_length _ h2]
    obtain ⟨hts, hrest⟩ := List.append_inj heq hlen
    simp only [List.cons.injEq, true_and] at hrest
    have hdata : e1.id.data = e2.id.data := List.append_cancel_right hrest
    apply hid
    cases hi1 : e1.id
    cases hi2 : e2.id
    rw [hi1, hi2] at hdata
    exact congrArg String.mk (by simpa using hdata)

/-- Witness for C8's amended theorem: distinct-second envelopes sort in
creation order, and distinct ids give distinct names. -/
theorem C8_filename_order_witness :
    (tsBounded (astimezoneUTC envC8a.created_at) ∧
      tsBounded (astimezoneUTC envSample.created_at)) ∧
    (tsTupleLt (astimezoneUTC envC8a.created_at) (astimezoneUTC envSample.created_at) →
      lexLt (save_envelope_filename envC8a) (save_envelope_filename envSample) = true) ∧
    (envC8a.id ≠ envSample.id →
      save_envelope_filename envC8a ≠ save_envelope_filename envSample) :=
  have hb1 : tsBounded (astimezoneUTC envC8a.created_at) := by
    unfold tsBounded
    decide
  have hb2 : tsBounded (astimezoneUTC envSample.created_at) := by
    unfold tsBounded
    decide
  ⟨⟨hb1, hb2⟩, (C8_filename_order envC8a envSample hb1 hb2).1,
    (C8_filename_order envC8a envSample hb1 hb2).2⟩
